import Mathlib

/- Shallow embedding of agent.py from agent-adk-demo: the voiceRef resolver
   `find_invoice_by_spoken_local` (lines 57-100) and the POST /agent/pay
   orchestration `agent_pay_invoice` (lines 159-230), together with the
   sequence of backend calls each run issues.

   Modelling conventions:
   - Strings are Lean `String`, manipulated as `List Char` where the Python
     code does character-level work (lower/strip/regex).
   - `amount` is an `Int`; only ordering and equality of amounts are used.
   - `dueDate` is an `Int` standing for the timestamp produced by
     `datetime.fromisoformat`; only its order is used by the code.
   - A missing JSON field that Python reads with `.get` and then tests for
     truthiness is modelled as the empty string (both `None` and `""` are
     falsy in Python and the code treats them identically).
   - The backend is an oracle: a record of functions from request to
     `Except String` of the parsed response, standing for
     `backend_get`/`backend_post`, which either return parsed JSON or raise. -/

namespace AgentAdk

/-- An invoice as consumed by agent.py. `shortId` holds the value of
`str(inv.get('shortId'))`; `invoiceId` is `""` when the field is absent or
empty (both falsy in the Python guard on line 71). -/
structure Invoice where
  invoiceId : String
  shortId : String
  vendor : String
  label : String
  description : String
  amount : Int
  dueDate : Int
  paid : Bool
deriving DecidableEq, Repr

/-- ASCII case folding of one character, modelling Python `str.lower` on the
ASCII references the code handles. -/
def lowerChar (c : Char) : Char :=
  if 'A' ≤ c ∧ c ≤ 'Z' then Char.ofNat (c.toNat + 32) else c

def lowerList (l : List Char) : List Char := l.map lowerChar

/-- The ASCII whitespace class of Python `str.strip` and of the regex
class `\s`: space, tab, newline, carriage return, vertical tab, form feed. -/
def isSpaceChar (c : Char) : Bool :=
  c == ' ' || c == '\t' || c == '\n' || c == '\r' || c == Char.ofNat 11 || c == Char.ofNat 12

/-- Python `str.strip`: drop leading and trailing whitespace. -/
def stripBoth (l : List Char) : List Char :=
  ((l.dropWhile isSpaceChar).reverse.dropWhile isSpaceChar).reverse

/-- `s.lower().strip()` applied to the reference (agent.py line 64). -/
def normRef (ref : String) : List Char := stripBoth (lowerList ref.data)

/-- Does `pat` occur at the head of the second list? -/
def headMatch : List Char → List Char → Bool
  | [], _ => true
  | _ :: _, [] => false
  | a :: as, b :: bs => a == b && headMatch as bs

/-- Python substring test `pat in hay` (contiguous substring). -/
def substrOf (pat : List Char) : List Char → Bool
  | [] => pat.isEmpty
  | b :: bs => headMatch pat (b :: bs) || substrOf pat bs

/-- Match `\d{2,6}` at the start of `l` (greedy, pattern ends after the
group, so the greedy take needs no backtracking): at least 2 digits, at
most 6 consumed. -/
def digitsGroup (l : List Char) : Option (List Char) :=
  let ds := (l.takeWhile Char.isDigit).take 6
  if 2 ≤ ds.length then some ds else none

/-- Match the pattern `inv[-\s]?(\d{2,6})` anchored at the start of the
list, returning group 1. The optional separator is greedy: it is consumed
first and released on backtracking (after `-` or whitespace the released
branch always fails because the separator is not a digit, which the
fallback `digitsGroup rest` reproduces). -/
def matchInvAt : List Char → Option (List Char)
  | 'i' :: 'n' :: 'v' :: rest =>
    match rest with
    | [] => none
    | c :: rest2 =>
      if c == '-' || isSpaceChar c then
        match digitsGroup rest2 with
        | some ds => some ds
        | none => digitsGroup rest
      else digitsGroup rest
  | _ => none

/-- `re.search(r'inv[-\s]?(\d{2,6})', s)` (agent.py line 67): leftmost
position where the pattern matches; returns group 1. -/
def searchInv : List Char → Option (List Char)
  | [] => none
  | c :: cs =>
    match matchInvAt (c :: cs) with
    | some ds => some ds
    | none => searchInv cs

/-- `re.search(r'(\d{2,6})', s)` (agent.py line 75): leftmost position where
at least two digits start; group 1 is the greedy take of up to 6 digits. -/
def searchDigits : List Char → Option (List Char)
  | [] => none
  | c :: cs =>
    match digitsGroup (c :: cs) with
    | some ds => some ds
    | none => searchDigits cs

/-- Tier-1 candidate test (agent.py line 71):
`str(inv.get('shortId')) == sid or (inv.get('invoiceId') and sid in inv.get('invoiceId'))`. -/
def tier1Hit (sid : List Char) (inv : Invoice) : Bool :=
  inv.shortId.data == sid || (!inv.invoiceId.isEmpty && substrOf sid inv.invoiceId.data)

/-- Tier-3 candidate test (agent.py line 84): the normalized reference is a
substring of the lowercased vendor, label or description. -/
def tier3Hit (s : List Char) (inv : Invoice) : Bool :=
  substrOf s (lowerList inv.vendor.data) || substrOf s (lowerList inv.label.data)
    || substrOf s (lowerList inv.description.data)

def tier3 (s : List Char) (invs : List Invoice) : Option Invoice :=
  invs.find? (tier3Hit s)

/-- First element of the list attaining the maximal key: the head of
`sorted(l, key=key, reverse=True)` (Python sort is stable, and `reverse=True`
keeps equal-key elements in original order). -/
def argmaxBy (key : Invoice → Int) : List Invoice → Option Invoice
  | [] => none
  | x :: xs =>
    match argmaxBy key xs with
    | none => some x
    | some y => if key x < key y then some y else some x

/-- First element of the list attaining the minimal key: the head of the
stable ascending `sorted(l, key=key)`. -/
def argminBy (key : Invoice → Int) : List Invoice → Option Invoice
  | [] => none
  | x :: xs =>
    match argminBy key xs with
    | none => some x
    | some y => if key y < key x then some y else some x

/-- Tier 4, the keyword/superlative tier (agent.py lines 87-98). -/
def tier4 (s : List Char) (invs : List Invoice) : Option Invoice :=
  let not_paid := invs.filter (fun i => !i.paid)
  if not_paid.isEmpty then none
  else if substrOf ("last".data) s || substrOf ("latest".data) s
      || substrOf ("most recent".data) s then
    argmaxBy (fun x => x.dueDate) not_paid
  else if substrOf ("oldest".data) s || substrOf ("earliest".data) s then
    argminBy (fun x => x.dueDate) not_paid
  else if substrOf ("largest".data) s || substrOf ("biggest".data) s
      || substrOf ("highest".data) s then
    argmaxBy (fun x => x.amount) not_paid
  else if substrOf ("smallest".data) s || substrOf ("small".data) s then
    argminBy (fun x => x.amount) not_paid
  else none

/-- The voiceRef resolver (agent.py lines 57-100). Tiers are tried in
order; within a tier the first matching candidate in input order wins; a
tier whose pattern fires but whose candidate scan finds nothing falls
through to the next tier, exactly as in the source. -/
def find_invoice_by_spoken_local (ref : String) (invoices_list : List Invoice) : Option Invoice :=
  if ref.isEmpty then none
  else
    let s := normRef ref
    let t1 : Option Invoice :=
      match searchInv s with
      | some sid => invoices_list.find? (tier1Hit sid)
      | none => none
    match t1 with
    | some inv => some inv
    | none =>
      let t2 : Option Invoice :=
        match searchDigits s with
        | some sid => invoices_list.find? (fun inv => inv.shortId.data == sid)
        | none => none
      match t2 with
      | some inv => some inv
      | none =>
        match tier3 s invoices_list with
        | some inv => some inv
        | none => tier4 s invoices_list

/-- Body of the Cart-mandate POST (agent.py lines 200-206). -/
structure MandatePayload where
  userId : String
  type : String
  action : String
  amountLimit : Int
  invoiceId : String
deriving DecidableEq, Repr

/-- What agent.py extracts from the mandate response (lines 209-211):
`mandate_data.get('signedMandate')` and `.get('mandateId')`, either of which
may be absent (`None`). -/
structure MandateData where
  mandateId : Option String
  signedMandate : Option String
deriving DecidableEq, Repr

/-- Body of the payment POST (agent.py lines 216-221). -/
structure PayPayload where
  mandateId : Option String
  signedMandate : Option String
  invoiceId : String
  paymentMethod : String
deriving DecidableEq, Repr

/-- The receipt extracted from a successful payment response (line 225). -/
structure Receipt where
  receiptId : String
  amount : Int
deriving DecidableEq, Repr

/-- One backend HTTP call, in the order agent.py issues them. -/
inductive Call where
  | getInvoices (userId : String)
  | getInvoiceDetail (invoiceId : String)
  | postMandates (payload : MandatePayload)
  | postPay (payload : PayPayload)
deriving DecidableEq, Repr

/-- The backend as an oracle: each operation either returns the parsed
response or fails (`backend_get`/`backend_post` raising, a non-2xx status,
or the subsequent parsing of the response raising inside the same `try`).
`invoiceDetail` returning `ok none` models a 2xx response whose data holds
no (or a falsy) `invoice` value. -/
structure Backend where
  listInvoices : String → Except String (List Invoice)
  invoiceDetail : String → Except String (Option Invoice)
  createMandate : MandatePayload → Except String MandateData
  payExec : PayPayload → Except String Receipt

/-- Outcome of a run of the /agent/pay handler: `assistant_ok` with the
artifacts the success path reports, or `assistant_err msg code`. -/
inductive AgentResult where
  | ok (cart : MandateData) (receipt : Receipt) (speak : String)
  | err (message : String) (code : Nat)
deriving DecidableEq, Repr

/-- Request body of POST /agent/pay; `none` models an absent JSON field. -/
structure PayRequest where
  userId : Option String
  invoiceId : Option String
  voiceRef : Option String
deriving DecidableEq, Repr

/-- Python truthiness of an optional string field: absent and `""` are
falsy. -/
def truthy : Option String → Bool
  | none => false
  | some s => !s.isEmpty

/-- The string value of an optional field (its Python value, with absent
and `""` identified — the code only uses the value when it is truthy or
tests it with `if not`). -/
def getS : Option String → String
  | none => ""
  | some s => s

/-- Record one backend call in front of the trace of a continuation. -/
def withCall (c : Call) (p : AgentResult × List Call) : AgentResult × List Call :=
  (p.1, c :: p.2)

/-- The Cart-mandate payload built on agent.py lines 200-206. -/
def cartPayload (user invoiceId : String) (invoice : Invoice) : MandatePayload :=
  { userId := user, type := "Cart", action := "Pay invoice " ++ invoiceId,
    amountLimit := invoice.amount, invoiceId := invoiceId }

/-- The payment payload built on agent.py lines 216-221. -/
def payPayload (md : MandateData) (invoiceId : String) : PayPayload :=
  { mandateId := md.mandateId, signedMandate := md.signedMandate,
    invoiceId := invoiceId, paymentMethod := "agent-demo-card" }

/-- Stage 3 of the pipeline: the payment POST (agent.py lines 215-230). -/
def payStage (B : Backend) (md : MandateData) (invoiceId : String) : AgentResult × List Call :=
  match B.payExec (payPayload md invoiceId) with
  | .error e => (.err ("Payment failed: " ++ e) 502, [.postPay (payPayload md invoiceId)])
  | .ok receipt =>
      (.ok md receipt ("Payment successful. Invoice " ++ invoiceId ++ " paid for $"
        ++ toString receipt.amount ++ "."), [.postPay (payPayload md invoiceId)])

/-- Stage 2: mandate creation (agent.py lines 199-213), then stage 3. -/
def mandateStage (B : Backend) (user invoiceId : String) (invoice : Invoice) : AgentResult × List Call :=
  let p := cartPayload user invoiceId invoice
  match B.createMandate p with
  | .error e => (.err ("Failed to create cart mandate: " ++ e) 502, [.postMandates p])
  | .ok md => withCall (.postMandates p) (payStage B md invoiceId)

/-- The `if not invoiceId` guard (line 187) and stage 1, the invoice-detail
lookup (agent.py lines 190-197), then stages 2-3. -/
def lookupStage (B : Backend) (user invoiceId : String) : AgentResult × List Call :=
  if invoiceId.isEmpty then (.err "invoiceId or voiceRef required" 400, [])
  else
    match B.invoiceDetail invoiceId with
    | .error e => (.err ("Invoice lookup failed: " ++ e) 404, [.getInvoiceDetail invoiceId])
    | .ok none => (.err "Invoice not found" 404, [.getInvoiceDetail invoiceId])
    | .ok (some invoice) =>
        withCall (.getInvoiceDetail invoiceId) (mandateStage B user invoiceId invoice)

/-- The voiceRef-resolution step (agent.py lines 180-188): run only when
`voiceRef` is truthy and `invoiceId` is not; a resolver miss is a 404. -/
def resolveStage (B : Backend) (user : String) (invoiceId voiceRef : Option String)
    (invoice_list : List Invoice) : AgentResult × List Call :=
  if truthy voiceRef && !truthy invoiceId then
    match find_invoice_by_spoken_local (getS voiceRef) invoice_list with
    | none => (.err "I couldn't find an invoice matching that description" 404, [])
    | some inv => lookupStage B user inv.invoiceId
  else lookupStage B user (getS invoiceId)

/-- The POST /agent/pay handler (agent.py lines 159-230), returning the
handler result together with the ordered trace of backend calls issued. -/
def agent_pay_invoice (B : Backend) (body : PayRequest) : AgentResult × List Call :=
  if !truthy body.userId then (.err "userId required" 400, [])
  else
    let user := getS body.userId
    match B.listInvoices user with
    | .error e => (.err ("Could not fetch invoices: " ++ e) 502, [.getInvoices user])
    | .ok invoice_list =>
        withCall (.getInvoices user)
          (resolveStage B user body.invoiceId body.voiceRef invoice_list)

/- ------------------------------------------------------------------ -/
/- Concrete inputs used by witnesses and counterexamples                -/
/- ------------------------------------------------------------------ -/

/-- Counterexample input for claim C3: a candidate that matches tier 1 on
nothing but whose vendor contains the whole reference. -/
def invC3 : Invoice :=
  { invoiceId := "X", shortId := "999", vendor := "inv-125 corp", label := "",
    description := "", amount := 1, dueDate := 1, paid := false }

/-- Concrete tier-1 candidate for the C3 witness. -/
def inv125w : Invoice :=
  { invoiceId := "inv-125-2024", shortId := "125", vendor := "", label := "",
    description := "", amount := 10, dueDate := 1, paid := false }

/-- First concrete candidate for claim C6. -/
def inv99 : Invoice :=
  { invoiceId := "inv-99", shortId := "99", vendor := "Acme Power", label := "Electricity",
    description := "", amount := 120, dueDate := 110, paid := false }

/-- Second concrete candidate for claim C6: shortId "099" is not string-equal
to the extracted digits "99". -/
def inv099 : Invoice :=
  { invoiceId := "inv-099", shortId := "099", vendor := "Water Co", label := "Water",
    description := "", amount := 45, dueDate := 105, paid := false }

/-- Invoice served by the concrete backends below under id "I1". -/
def invD : Invoice :=
  { invoiceId := "I1", shortId := "10", vendor := "Acme", label := "Internet",
    description := "", amount := 75, dueDate := 130, paid := false }

/-- A backend on which every call succeeds. -/
def Bok : Backend :=
  { listInvoices := fun _ => .ok [invD],
    invoiceDetail := fun _ => .ok (some invD),
    createMandate := fun _ => .ok { mandateId := some "m1", signedMandate := some "sig1" },
    payExec := fun _ => .ok { receiptId := "r1", amount := 75 } }

/-- A backend whose mandate-creation POST fails. -/
def BmandateFail : Backend :=
  { listInvoices := fun _ => .ok [invD],
    invoiceDetail := fun _ => .ok (some invD),
    createMandate := fun _ => .error "mandate down",
    payExec := fun _ => .ok { receiptId := "r1", amount := 75 } }

/-- A backend whose invoice-detail GET fails with a network error. -/
def BdetailFail : Backend :=
  { listInvoices := fun _ => .ok [invD],
    invoiceDetail := fun _ => .error "boom",
    createMandate := fun _ => .ok { mandateId := some "m1", signedMandate := some "sig1" },
    payExec := fun _ => .ok { receiptId := "r1", amount := 75 } }

/-- A backend whose invoice-list GET fails with a network error. -/
def BlistFail : Backend :=
  { listInvoices := fun _ => .error "down",
    invoiceDetail := fun _ => .ok (some invD),
    createMandate := fun _ => .ok { mandateId := some "m1", signedMandate := some "sig1" },
    payExec := fun _ => .ok { receiptId := "r1", amount := 75 } }

/-- Unpaid candidate of small amount and late dueDate, for claim C4. -/
def invA : Invoice :=
  { invoiceId := "A", shortId := "", vendor := "", label := "",
    description := "", amount := 10, dueDate := 5, paid := false }

/-- Unpaid candidate of large amount and early dueDate, for claim C4. -/
def invB : Invoice :=
  { invoiceId := "B", shortId := "", vendor := "", label := "",
    description := "", amount := 100, dueDate := 1, paid := false }

/-- A /agent/pay body supplying `invoiceId` directly. -/
def bodyDirect : PayRequest :=
  { userId := some "u1", invoiceId := some "I1", voiceRef := none }

/-- A /agent/pay body with `userId` only: both `invoiceId` and `voiceRef`
are missing. -/
def bodyNoRef : PayRequest :=
  { userId := some "u1", invoiceId := none, voiceRef := none }

/- ------------------------------------------------------------------ -/
/- Helper lemmas about the resolver                                    -/
/- ------------------------------------------------------------------ -/

theorem substrOf_nil (hay : List Char) : substrOf [] hay = true := by
  cases hay <;> simp [substrOf, headMatch]

theorem lowerChar_space {c : Char} (h : isSpaceChar c = true) : isSpaceChar (lowerChar c) = true := by
  have hc : ((((c = ' ' ∨ c = '\t') ∨ c = '\n') ∨ c = '\r') ∨ c = Char.ofNat 11) ∨ c = Char.ofNat 12 := by
    simpa [isSpaceChar, beq_iff_eq] using h
  rcases hc with ((((rfl | rfl) | rfl) | rfl) | rfl) | rfl <;> decide

theorem normRef_all_space {ref : String} (h : ∀ c ∈ ref.data, isSpaceChar c = true) :
    normRef ref = [] := by
  unfold normRef stripBoth lowerList
  have h2 : ∀ c ∈ ref.data.map lowerChar, isSpaceChar c = true := by
    intro c hc
    obtain ⟨a, ha, rfl⟩ := List.mem_map.mp hc
    exact lowerChar_space (h a ha)
  rw [List.dropWhile_eq_nil_iff.mpr h2]
  simp

/- ------------------------------------------------------------------ -/
/- Claims about the resolver: C3, C6, C8, C9                           -/
/- ------------------------------------------------------------------ -/


/-- Claim C3, counterexample: the reference "inv-125" matches tier 1 (group
"125"), the single candidate satisfies neither tier-1 criterion, and yet the
resolver returns it — resolution fell through to the tier-3 vendor test, so a
tier-1 pattern match does not determine the result by tier 1 alone. -/
theorem C3_counterexample :
    searchInv (normRef "inv-125") = some ("125".data) ∧
    tier1Hit ("125".data) invC3 = false ∧
    find_invoice_by_spoken_local "inv-125" [invC3] = some invC3 :=
  ⟨by decide, by decide, by decide⟩

/-- Claim C3, amended: if the reference matches tier 1's pattern AND some
candidate satisfies tier 1's criteria (shortId equality or containment in
invoiceId) for the extracted digit group, then the resolver returns the
first such candidate and tiers 2-4 are never consulted; when no candidate
satisfies tier 1, resolution falls through to the later tiers. -/
theorem C3_amended_tier1_hit_decides (ref : String) (invs : List Invoice)
    (sid : List Char) (inv : Invoice)
    (h0 : ref.isEmpty = false)
    (h1 : searchInv (normRef ref) = some sid)
    (h2 : invs.find? (tier1Hit sid) = some inv) :
    find_invoice_by_spoken_local ref invs = some inv := by
  simp [find_invoice_by_spoken_local, h0, h1, h2]


/-- Witness for the amended C3 at reference "inv-125". -/
theorem C3_amended_witness :
    ("inv-125" : String).isEmpty = false ∧
    searchInv (normRef "inv-125") = some ("125".data) ∧
    ([inv125w] : List Invoice).find? (tier1Hit ("125".data)) = some inv125w ∧
    find_invoice_by_spoken_local "inv-125" [inv125w] = some inv125w :=
  ⟨by decide, by decide, by decide,
    C3_amended_tier1_hit_decides "inv-125" [inv125w] ("125".data) inv125w
      (by decide) (by decide) (by decide)⟩



/-- Claim C6: resolving "pay 99" against [shortId "99", shortId "099"]
returns the first candidate whose shortId is string-equal to the extracted
digits — the "99" one, never the "099" one. -/
theorem C6_bare_numeric_exact_shortId :
    find_invoice_by_spoken_local "pay 99" [inv99, inv099] = some inv99 ∧
    searchDigits (normRef "pay 99") = some ("99".data) ∧
    inv099.shortId.data ≠ ("99".data) :=
  ⟨by decide, by decide, by decide⟩

/-- Claim C8: the empty reference resolves to NoMatch for every candidate
list. -/
theorem C8_empty_ref_no_match (invs : List Invoice) :
    find_invoice_by_spoken_local "" invs = none := rfl

/-- Claim C9: a non-empty, all-whitespace reference normalizes to the empty
string, which the tier-3 substring test finds in every candidate, so the
resolver returns the first candidate of the list (and NoMatch only for an
empty list). -/
theorem C9_whitespace_ref_returns_head (ref : String) (invs : List Invoice)
    (h0 : ref.isEmpty = false) (h : ∀ c ∈ ref.data, isSpaceChar c = true) :
    find_invoice_by_spoken_local ref invs = invs.head? := by
  have hs : normRef ref = [] := normRef_all_space h
  cases invs with
  | nil => simp [find_invoice_by_spoken_local, h0, hs, tier3, tier4, searchInv, searchDigits]
  | cons x xs =>
      simp [find_invoice_by_spoken_local, h0, hs, tier3, searchInv, searchDigits,
        List.find?_cons, tier3Hit, substrOf_nil]

/-- Witness for C9: the single-space reference and a one-candidate list. -/
theorem C9_witness :
    (" " : String).isEmpty = false ∧
    (∀ c ∈ (" " : String).data, isSpaceChar c = true) ∧
    find_invoice_by_spoken_local " " [invC3] = some invC3 :=
  ⟨by decide, by decide,
    C9_whitespace_ref_returns_head " " [invC3] (by decide) (by decide)⟩

/- ------------------------------------------------------------------ -/
/- Helper lemmas about the orchestration pipeline                      -/
/- ------------------------------------------------------------------ -/

theorem payStage_trace (B : Backend) (md : MandateData) (iid : String) :
    (payStage B md iid).2 = [.postPay (payPayload md iid)] := by
  unfold payStage
  cases B.payExec (payPayload md iid) <;> rfl

theorem payStage_fail (B : Backend) (md : MandateData) (iid : String) (e : String)
    (h : B.payExec (payPayload md iid) = .error e) :
    payStage B md iid = (.err ("Payment failed: " ++ e) 502, [.postPay (payPayload md iid)]) := by
  unfold payStage
  rw [h]

theorem mandateStage_fail (B : Backend) (u iid : String) (inv : Invoice) (e : String)
    (h : B.createMandate (cartPayload u iid inv) = .error e) :
    mandateStage B u iid inv =
      (.err ("Failed to create cart mandate: " ++ e) 502,
        [.postMandates (cartPayload u iid inv)]) := by
  simp only [mandateStage]
  rw [h]

theorem mandateStage_ok (B : Backend) (u iid : String) (inv : Invoice) (md : MandateData)
    (h : B.createMandate (cartPayload u iid inv) = .ok md) :
    mandateStage B u iid inv =
      withCall (.postMandates (cartPayload u iid inv)) (payStage B md iid) := by
  simp only [mandateStage]
  rw [h]

theorem mandateStage_mem_postMandates (B : Backend) (u iid : String) (inv : Invoice)
    (p : MandatePayload) (h : Call.postMandates p ∈ (mandateStage B u iid inv).2) :
    p = cartPayload u iid inv := by
  cases hc : B.createMandate (cartPayload u iid inv) with
  | error e =>
      rw [mandateStage_fail B u iid inv e hc] at h
      simpa using h
  | ok md =>
      rw [mandateStage_ok B u iid inv md hc] at h
      simp only [withCall, List.mem_cons, payStage_trace] at h
      rcases h with h | h
      · simpa using h
      · simp at h


theorem mandateStage_mem_postPay (B : Backend) (u iid : String) (inv : Invoice)
    (q : PayPayload) (h : Call.postPay q ∈ (mandateStage B u iid inv).2) :
    ∃ md, B.createMandate (cartPayload u iid inv) = .ok md ∧ q = payPayload md iid := by
  cases hc : B.createMandate (cartPayload u iid inv) with
  | error e =>
      rw [mandateStage_fail B u iid inv e hc] at h
      simp at h
  | ok md =>
      rw [mandateStage_ok B u iid inv md hc] at h
      simp only [withCall, List.mem_cons, payStage_trace] at h
      rcases h with h | h
      · simp at h
      · exact ⟨md, rfl, by simpa using h⟩

theorem mandateStage_no_detail (B : Backend) (u iid : String) (inv : Invoice) (i : String) :
    Call.getInvoiceDetail i ∉ (mandateStage B u iid inv).2 := by
  cases hc : B.createMandate (cartPayload u iid inv) with
  | error e => rw [mandateStage_fail B u iid inv e hc]; simp
  | ok md => rw [mandateStage_ok B u iid inv md hc]; simp [withCall, payStage_trace]

theorem lookupStage_detail_fail (B : Backend) (u iid : String) (e : String)
    (h0 : iid.isEmpty = false) (h : B.invoiceDetail iid = .error e) :
    lookupStage B u iid = (.err ("Invoice lookup failed: " ++ e) 404, [.getInvoiceDetail iid]) := by
  unfold lookupStage
  rw [if_neg (by simp [h0]), h]

theorem lookupStage_detail_ok (B : Backend) (u iid : String) (inv : Invoice)
    (h0 : iid.isEmpty = false) (h : B.invoiceDetail iid = .ok (some inv)) :
    lookupStage B u iid =
      withCall (.getInvoiceDetail iid) (mandateStage B u iid inv) := by
  unfold lookupStage
  rw [if_neg (by simp [h0]), h]

theorem lookupStage_mem_detail (B : Backend) (u iid i : String)
    (h : Call.getInvoiceDetail i ∈ (lookupStage B u iid).2) :
    i = iid ∧ iid.isEmpty = false := by
  by_cases h0 : iid.isEmpty = true
  · simp [lookupStage, h0] at h
  · have h0f : iid.isEmpty = false := by simpa using h0
    refine ⟨?_, h0f⟩
    cases hc : B.invoiceDetail iid with
    | error e =>
        rw [lookupStage_detail_fail B u iid e h0f hc] at h
        simpa using h
    | ok o =>
        cases o with
        | none => simp [lookupStage, h0f, hc] at h; exact h
        | some inv =>
            rw [lookupStage_detail_ok B u iid inv h0f hc] at h
            simp only [withCall, List.mem_cons] at h
            rcases h with h | h
            · simpa using h
            · exact absurd h (mandateStage_no_detail B u iid inv i)

theorem lookupStage_mem_postMandates (B : Backend) (u iid : String) (p : MandatePayload)
    (h : Call.postMandates p ∈ (lookupStage B u iid).2) :
    ∃ inv, iid.isEmpty = false ∧ B.invoiceDetail iid = .ok (some inv) ∧
      p = cartPayload u iid inv ∧
      lookupStage B u iid = withCall (.getInvoiceDetail iid) (mandateStage B u iid inv) := by
  by_cases h0 : iid.isEmpty = true
  · simp [lookupStage, h0] at h
  · have h0f : iid.isEmpty = false := by simpa using h0
    cases hc : B.invoiceDetail iid with
    | error e =>
        rw [lookupStage_detail_fail B u iid e h0f hc] at h
        simp at h
    | ok o =>
        cases o with
        | none => simp [lookupStage, h0f, hc] at h
        | some inv =>
            have hfac := lookupStage_detail_ok B u iid inv h0f hc
            rw [hfac] at h
            simp only [withCall, List.mem_cons] at h
            rcases h with h | h
            · simp at h
            · exact ⟨inv, h0f, rfl, mandateStage_mem_postMandates B u iid inv p h, hfac⟩

theorem lookupStage_mem_postPay (B : Backend) (u iid : String) (q : PayPayload)
    (h : Call.postPay q ∈ (lookupStage B u iid).2) :
    ∃ inv md, iid.isEmpty = false ∧ B.invoiceDetail iid = .ok (some inv) ∧
      B.createMandate (cartPayload u iid inv) = .ok md ∧ q = payPayload md iid ∧
      lookupStage B u iid = withCall (.getInvoiceDetail iid) (mandateStage B u iid inv) := by
  by_cases h0 : iid.isEmpty = true
  · simp [lookupStage, h0] at h
  · have h0f : iid.isEmpty = false := by simpa using h0
    cases hc : B.invoiceDetail iid with
    | error e =>
        rw [lookupStage_detail_fail B u iid e h0f hc] at h
        simp at h
    | ok o =>
        cases o with
        | none => simp [lookupStage, h0f, hc] at h
        | some inv =>
            have hfac := lookupStage_detail_ok B u iid inv h0f hc
            rw [hfac] at h
            simp only [withCall, List.mem_cons] at h
            rcases h with h | h
            · simp at h
            · obtain ⟨md, hmd, hq⟩ := mandateStage_mem_postPay B u iid inv q h
              exact ⟨inv, md, h0f, rfl, hmd, hq, hfac⟩

theorem resolveStage_cases (B : Backend) (u : String) (iid vr : Option String)
    (l : List Invoice) :
    resolveStage B u iid vr l =
        (.err "I couldn't find an invoice matching that description" 404, [])
    ∨ ∃ x, resolveStage B u iid vr l = lookupStage B u x := by
  simp only [resolveStage]
  by_cases h : (truthy vr && !truthy iid) = true
  · rw [if_pos h]
    cases find_invoice_by_spoken_local (getS vr) l with
    | none => exact Or.inl rfl
    | some inv => exact Or.inr ⟨inv.invoiceId, rfl⟩
  · rw [if_neg h]
    exact Or.inr ⟨getS iid, rfl⟩

theorem agent_split (B : Backend) (body : PayRequest) :
    (truthy body.userId = false ∧
       agent_pay_invoice B body = (.err "userId required" 400, []))
    ∨ (truthy body.userId = true ∧
       ((∃ e, B.listInvoices (getS body.userId) = .error e ∧
            agent_pay_invoice B body =
              (.err ("Could not fetch invoices: " ++ e) 502,
                [.getInvoices (getS body.userId)]))
        ∨ (∃ l, B.listInvoices (getS body.userId) = .ok l ∧
            agent_pay_invoice B body =
              withCall (.getInvoices (getS body.userId))
                (resolveStage B (getS body.userId) body.invoiceId body.voiceRef l)))) := by
  by_cases h : truthy body.userId = true
  · right
    refine ⟨h, ?_⟩
    cases hc : B.listInvoices (getS body.userId) with
    | error e =>
        left
        refine ⟨e, rfl, ?_⟩
        unfold agent_pay_invoice
        rw [if_neg (by simp [h])]
        simp [hc]
    | ok l =>
        right
        refine ⟨l, rfl, ?_⟩
        unfold agent_pay_invoice
        rw [if_neg (by simp [h])]
        simp [hc]
  · left
    have hf : truthy body.userId = false := by simpa using h
    exact ⟨hf, by simp [agent_pay_invoice, hf]⟩

/-- Core lemma shared by C1 and C5: a failing mandate POST yields the
mandate-stage 502 error and a trace with no payment POST. -/
theorem agent_mandate_fail_core (B : Backend) (body : PayRequest) (p : MandatePayload)
    (e : String)
    (hmem : Call.postMandates p ∈ (agent_pay_invoice B body).2)
    (hfail : B.createMandate p = .error e) :
    (agent_pay_invoice B body).1 = .err ("Failed to create cart mandate: " ++ e) 502 ∧
    ∀ q, Call.postPay q ∉ (agent_pay_invoice B body).2 := by
  rcases agent_split B body with ⟨h0, heq⟩ | ⟨h0, ⟨e2, he2, heq⟩ | ⟨l, hl, heq⟩⟩
  · rw [heq] at hmem
    simp at hmem
  · rw [heq] at hmem
    simp at hmem
  · rcases resolveStage_cases B (getS body.userId) body.invoiceId body.voiceRef l with
      hres | ⟨x, hres⟩
    · rw [hres] at heq
      rw [heq] at hmem
      simp [withCall] at hmem
    · rw [hres] at heq
      rw [heq] at hmem
      simp only [withCall, List.mem_cons] at hmem
      rcases hmem with hmem | hmem
      · simp at hmem
      · obtain ⟨inv, hne, hdet, rfl, hfac⟩ :=
            lookupStage_mem_postMandates B (getS body.userId) x p hmem
        have hman := mandateStage_fail B (getS body.userId) x inv e hfail
        rw [heq, hfac, hman]
        constructor
        · rfl
        · intro q
          simp [withCall]

/- ------------------------------------------------------------------ -/
/- Claims about the orchestration: C1, C2, C5, C7, C10                 -/
/- ------------------------------------------------------------------ -/

/-- Claim C1: in every /agent/pay run in which the mandate-creation POST is
issued (hence the invoice lookup succeeded) and the backend fails that POST,
the payment POST to /api/pay is never issued and the run ends with the
mandate-stage failure (502, "Failed to create cart mandate: ..."). -/
theorem C1_mandate_fail_halts_before_payment (B : Backend) (body : PayRequest)
    (p : MandatePayload) (e : String)
    (hmem : Call.postMandates p ∈ (agent_pay_invoice B body).2)
    (hfail : B.createMandate p = .error e) :
    (agent_pay_invoice B body).1 = .err ("Failed to create cart mandate: " ++ e) 502 ∧
    ∀ q, Call.postPay q ∉ (agent_pay_invoice B body).2 :=
  agent_mandate_fail_core B body p e hmem hfail

/-- Witness for C1: a run against a backend whose mandate POST fails. -/
theorem C1_witness :
    (agent_pay_invoice BmandateFail bodyDirect).1 =
      .err ("Failed to create cart mandate: " ++ "mandate down") 502 ∧
    ∀ q, Call.postPay q ∉ (agent_pay_invoice BmandateFail bodyDirect).2 :=
  C1_mandate_fail_halts_before_payment BmandateFail bodyDirect
    (cartPayload "u1" "I1" invD) "mandate down" (by decide) rfl

/-- Claim C2, counterexample: with `userId` present and both `invoiceId` and
`voiceRef` missing, the handler still issues the invoice-list GET before
returning the 400 validation error — its trace is not empty, so a backend
call IS attempted before the error is returned. -/
theorem C2_counterexample :
    agent_pay_invoice Bok bodyNoRef =
      (.err "invoiceId or voiceRef required" 400, [.getInvoices "u1"]) ∧
    [Call.getInvoices "u1"] ≠ ([] : List Call) :=
  ⟨by decide, by decide⟩

/-- Claim C2, amended: when `userId` is truthy and both `invoiceId` and
`voiceRef` are missing or empty, a ValidationError (400, "invoiceId or
voiceRef required") is surfaced, but only after the invoice-list GET has
been issued and has succeeded; exactly that one backend call precedes the
error, and no lookup, mandate or payment call is ever attempted. -/
theorem C2_amended_validation_after_list_fetch (B : Backend) (body : PayRequest)
    (l : List Invoice)
    (h1 : truthy body.userId = true) (h2 : truthy body.invoiceId = false)
    (h3 : truthy body.voiceRef = false)
    (h4 : B.listInvoices (getS body.userId) = .ok l) :
    agent_pay_invoice B body =
      (.err "invoiceId or voiceRef required" 400, [.getInvoices (getS body.userId)]) := by
  have h5 : (getS body.invoiceId).isEmpty = true := by
    cases hb : body.invoiceId with
    | none => rfl
    | some s => rw [hb] at h2; simpa [truthy, getS] using h2
  unfold agent_pay_invoice
  rw [if_neg (by simp [h1])]
  simp only [h4]
  unfold resolveStage
  rw [if_neg (by simp [h3])]
  unfold lookupStage
  rw [if_pos (by simp [h5])]
  simp [withCall]

/-- Witness for the amended C2. -/
theorem C2_amended_witness :
    truthy bodyNoRef.userId = true ∧ truthy bodyNoRef.invoiceId = false ∧
    truthy bodyNoRef.voiceRef = false ∧ Bok.listInvoices "u1" = .ok [invD] ∧
    agent_pay_invoice Bok bodyNoRef =
      (.err "invoiceId or voiceRef required" 400, [.getInvoices "u1"]) :=
  ⟨rfl, rfl, rfl, rfl,
    C2_amended_validation_after_list_fetch Bok bodyNoRef [invD] rfl rfl rfl rfl⟩

/-- Claim C5, counterexample: a backend network failure at the
invoice-detail lookup stage is surfaced with HTTP status 404 — the NotFound
status — not as the 502 BackendError used at the other stages. -/
theorem C5_counterexample :
    agent_pay_invoice BdetailFail bodyDirect =
      (.err "Invoice lookup failed: boom" 404,
        [.getInvoices "u1", .getInvoiceDetail "I1"]) ∧
    (404 : Nat) ≠ 502 :=
  ⟨by decide, by decide⟩

/-- Claim C5, amended: backend failures at the invoice-list fetch, the
mandate creation and the payment execution are surfaced with status 502
(BackendError); a backend failure at the invoice-detail lookup is instead
surfaced with status 404 ("Invoice lookup failed: ..."), merged with the
NotFound status, so 404 is not reserved to the no-candidate / no-invoice
cases. -/
theorem C5_amended_failure_statuses (B : Backend) (body : PayRequest) :
    (∀ e, truthy body.userId = true →
      B.listInvoices (getS body.userId) = .error e →
      (agent_pay_invoice B body).1 = .err ("Could not fetch invoices: " ++ e) 502) ∧
    (∀ iid e, Call.getInvoiceDetail iid ∈ (agent_pay_invoice B body).2 →
      B.invoiceDetail iid = .error e →
      (agent_pay_invoice B body).1 = .err ("Invoice lookup failed: " ++ e) 404) ∧
    (∀ p e, Call.postMandates p ∈ (agent_pay_invoice B body).2 →
      B.createMandate p = .error e →
      (agent_pay_invoice B body).1 = .err ("Failed to create cart mandate: " ++ e) 502) ∧
    (∀ q e, Call.postPay q ∈ (agent_pay_invoice B body).2 →
      B.payExec q = .error e →
      (agent_pay_invoice B body).1 = .err ("Payment failed: " ++ e) 502) := by
  refine ⟨?_, ?_, ?_, ?_⟩
  · intro e ht hl
    rcases agent_split B body with ⟨h0, heq⟩ | ⟨h0, ⟨e2, he2, heq⟩ | ⟨l, hl2, heq⟩⟩
    · rw [ht] at h0; cases h0
    · have he : e2 = e := by
        have := he2.symm.trans hl
        injection this
      rw [heq, he]
    · rw [hl2] at hl; cases hl
  · intro iid e hmem hdet
    rcases agent_split B body with ⟨h0, heq⟩ | ⟨h0, ⟨e2, he2, heq⟩ | ⟨l, hl2, heq⟩⟩
    · rw [heq] at hmem; simp at hmem
    · rw [heq] at hmem; simp at hmem
    · rcases resolveStage_cases B (getS body.userId) body.invoiceId body.voiceRef l with
        hres | ⟨x, hres⟩
      · rw [hres] at heq; rw [heq] at hmem; simp [withCall] at hmem
      · rw [hres] at heq
        rw [heq] at hmem
        simp only [withCall, List.mem_cons] at hmem
        rcases hmem with hmem | hmem
        · simp at hmem
        · obtain ⟨rfl, hne⟩ := lookupStage_mem_detail B (getS body.userId) x iid hmem
          rw [heq, lookupStage_detail_fail B (getS body.userId) iid e hne hdet]
          rfl
  · intro p e hmem hc
    exact (agent_mandate_fail_core B body p e hmem hc).1
  · intro q e hmem hpe
    rcases agent_split B body with ⟨h0, heq⟩ | ⟨h0, ⟨e2, he2, heq⟩ | ⟨l, hl2, heq⟩⟩
    · rw [heq] at hmem; simp at hmem
    · rw [heq] at hmem; simp at hmem
    · rcases resolveStage_cases B (getS body.userId) body.invoiceId body.voiceRef l with
        hres | ⟨x, hres⟩
      · rw [hres] at heq; rw [heq] at hmem; simp [withCall] at hmem
      · rw [hres] at heq
        rw [heq] at hmem
        simp only [withCall, List.mem_cons] at hmem
        rcases hmem with hmem | hmem
        · simp at hmem
        · obtain ⟨inv, md, hne, hdet, hmd, rfl, hfac⟩ :=
            lookupStage_mem_postPay B (getS body.userId) x q hmem
          have hman := mandateStage_ok B (getS body.userId) x inv md hmd
          have hpay := payStage_fail B md x e hpe
          rw [heq, hfac, hman, hpay]
          rfl

/-- Witness for the amended C5: a backend whose detail GET fails yields the
404 lookup-failure result. -/
theorem C5_amended_witness :
    (agent_pay_invoice BdetailFail bodyDirect).1 =
      .err ("Invoice lookup failed: " ++ "boom") 404 :=
  (C5_amended_failure_statuses BdetailFail bodyDirect).2.1 "I1" "boom" (by decide) rfl

/-- Claim C7: every mandate-creation request body issued by the
orchestration is exactly {userId, type: "Cart", action: "Pay invoice
<invoiceId>", amountLimit: invoice.amount, invoiceId}, where invoice is the
invoice the lookup stage returned for that invoiceId. -/
theorem C7_cart_payload_exact (B : Backend) (body : PayRequest) (p : MandatePayload)
    (hmem : Call.postMandates p ∈ (agent_pay_invoice B body).2) :
    ∃ inv, B.invoiceDetail p.invoiceId = .ok (some inv) ∧
      p = { userId := getS body.userId, type := "Cart",
            action := "Pay invoice " ++ p.invoiceId,
            amountLimit := inv.amount, invoiceId := p.invoiceId } := by
  rcases agent_split B body with ⟨h0, heq⟩ | ⟨h0, ⟨e2, he2, heq⟩ | ⟨l, hl2, heq⟩⟩
  · rw [heq] at hmem; simp at hmem
  · rw [heq] at hmem; simp at hmem
  · rcases resolveStage_cases B (getS body.userId) body.invoiceId body.voiceRef l with
      hres | ⟨x, hres⟩
    · rw [hres] at heq; rw [heq] at hmem; simp [withCall] at hmem
    · rw [hres] at heq
      rw [heq] at hmem
      simp only [withCall, List.mem_cons] at hmem
      rcases hmem with hmem | hmem
      · simp at hmem
      · obtain ⟨inv, hne, hdet, rfl, hfac⟩ :=
          lookupStage_mem_postMandates B (getS body.userId) x p hmem
        exact ⟨inv, hdet, rfl⟩

/-- Witness for C7: the concrete all-success run issues exactly the
specified Cart payload. -/
theorem C7_witness :
    ∃ inv, Bok.invoiceDetail "I1" = .ok (some inv) ∧
      cartPayload "u1" "I1" invD =
        { userId := "u1", type := "Cart", action := "Pay invoice " ++ "I1",
          amountLimit := inv.amount, invoiceId := "I1" } :=
  C7_cart_payload_exact Bok bodyDirect (cartPayload "u1" "I1" invD) (by decide)

/-- Claim C10: whenever `userId` is truthy, the first backend call of the
run is the invoice-list GET — even when `invoiceId` is supplied directly —
and if that GET fails the run ends with the 502 backend failure after that
single call, before any lookup, mandate or payment call. -/
theorem C10_list_fetch_always_first (B : Backend) (body : PayRequest)
    (h : truthy body.userId = true) :
    (agent_pay_invoice B body).2.head? = some (.getInvoices (getS body.userId)) ∧
    ∀ e, B.listInvoices (getS body.userId) = .error e →
      agent_pay_invoice B body =
        (.err ("Could not fetch invoices: " ++ e) 502,
          [.getInvoices (getS body.userId)]) := by
  rcases agent_split B body with ⟨h0, heq⟩ | ⟨h0, ⟨e2, he2, heq⟩ | ⟨l, hl2, heq⟩⟩
  · rw [h] at h0; cases h0
  · constructor
    · rw [heq]; rfl
    · intro e he
      have : e2 = e := by
        have := he2.symm.trans he
        injection this
      rw [heq, this]
  · constructor
    · rw [heq]; rfl
    · intro e he
      rw [hl2] at he; cases he

/-- Witness for C10: a backend whose list GET fails. -/
theorem C10_witness :
    (agent_pay_invoice BlistFail bodyDirect).2.head? = some (.getInvoices "u1") ∧
    agent_pay_invoice BlistFail bodyDirect =
      (.err ("Could not fetch invoices: " ++ "down") 502, [.getInvoices "u1"]) :=
  ⟨(C10_list_fetch_always_first BlistFail bodyDirect rfl).1,
    (C10_list_fetch_always_first BlistFail bodyDirect rfl).2 "down" rfl⟩

/- ------------------------------------------------------------------ -/
/- Claim C4: the "largest" superlative tier                            -/
/- ------------------------------------------------------------------ -/

theorem argmaxBy_cons (key : Invoice → Int) (x : Invoice) (xs : List Invoice) :
    argmaxBy key (x :: xs) =
      match argmaxBy key xs with
      | none => some x
      | some y => if key x < key y then some y else some x := rfl

/-- `argmaxBy` returns the first element of the list attaining the maximal
key: everything before it is strictly smaller, everything after it is at
most it. -/
theorem argmaxBy_spec (key : Invoice → Int) (l : List Invoice) (hl : l ≠ []) :
    ∃ l1 m l2, l = l1 ++ m :: l2 ∧ argmaxBy key l = some m ∧
      (∀ y ∈ l1, key y < key m) ∧ (∀ y ∈ l2, key y ≤ key m) := by
  induction l with
  | nil => exact absurd rfl hl
  | cons x xs ih =>
    cases xs with
    | nil => exact ⟨[], x, [], rfl, rfl, by simp, by simp⟩
    | cons a as =>
      obtain ⟨l1, m, l2, hdecomp, hmax, hlt, hle⟩ := ih (by simp)
      by_cases hk : key x < key m
      · refine ⟨x :: l1, m, l2, by rw [List.cons_append, hdecomp], ?_, ?_, hle⟩
        · rw [argmaxBy_cons, hmax]
          simp [hk]
        · intro y hy
          rcases List.mem_cons.mp hy with rfl | hy
          · exact hk
          · exact hlt y hy
      · have hk2 : key m ≤ key x := le_of_not_lt hk
        refine ⟨[], x, a :: as, rfl, ?_, by simp, ?_⟩
        · rw [argmaxBy_cons, hmax]
          simp [hk]
        · intro y hy
          rw [hdecomp] at hy
          rcases List.mem_append.mp hy with hy | hy
          · exact le_of_lt (lt_of_lt_of_le (hlt y hy) hk2)
          · rcases List.mem_cons.mp hy with rfl | hy
            · exact hk2
            · exact le_trans (hle y hy) hk2

/-- Claim C4, counterexample: the reference "last largest" contains
"largest" and misses tiers 1-3, both candidates are unpaid, and the
maximal-amount candidate is invB — yet the resolver returns invA, because
the keyword sets are tested in order and the "last/latest/most recent" set
(maximum dueDate) fires before the "largest" set is ever considered. -/
theorem C4_counterexample :
    substrOf ("largest".data) (normRef "last largest") = true ∧
    searchInv (normRef "last largest") = none ∧
    searchDigits (normRef "last largest") = none ∧
    tier3 (normRef "last largest") [invA, invB] = none ∧
    invB.paid = false ∧ invA.amount < invB.amount ∧
    find_invoice_by_spoken_local "last largest" [invA, invB] = some invA :=
  ⟨by decide, by decide, by decide, by decide, rfl, by decide, by decide⟩

/-- Claim C4, amended: for a reference that misses tiers 1-3, contains one
of "largest"/"biggest"/"highest", and contains none of the
earlier-precedence keywords "last", "latest", "most recent", "oldest",
"earliest", the resolver returns NoMatch when every candidate is paid, and
otherwise the unpaid candidate with maximal amount, ties broken in favour
of the earliest candidate in input order. -/
theorem C4_amended_largest_max_amount (ref : String) (invs : List Invoice)
    (h0 : ref.isEmpty = false)
    (ht1 : ∀ sid, searchInv (normRef ref) = some sid → invs.find? (tier1Hit sid) = none)
    (ht2 : ∀ sid, searchDigits (normRef ref) = some sid →
      invs.find? (fun inv => inv.shortId.data == sid) = none)
    (ht3 : tier3 (normRef ref) invs = none)
    (hkw : (substrOf ("largest".data) (normRef ref) || substrOf ("biggest".data) (normRef ref)
        || substrOf ("highest".data) (normRef ref)) = true)
    (hk1 : substrOf ("last".data) (normRef ref) = false)
    (hk2 : substrOf ("latest".data) (normRef ref) = false)
    (hk3 : substrOf ("most recent".data) (normRef ref) = false)
    (hk4 : substrOf ("oldest".data) (normRef ref) = false)
    (hk5 : substrOf ("earliest".data) (normRef ref) = false) :
    (invs.filter (fun i => !i.paid) = [] → find_invoice_by_spoken_local ref invs = none) ∧
    (invs.filter (fun i => !i.paid) ≠ [] →
      ∃ l1 m l2, invs.filter (fun i => !i.paid) = l1 ++ m :: l2 ∧
        find_invoice_by_spoken_local ref invs = some m ∧
        (∀ y ∈ l1, y.amount < m.amount) ∧ (∀ y ∈ l2, y.amount ≤ m.amount)) := by
  have hfind : find_invoice_by_spoken_local ref invs = tier4 (normRef ref) invs := by
    cases hs1 : searchInv (normRef ref) with
    | none =>
        cases hs2 : searchDigits (normRef ref) with
        | none => simp [find_invoice_by_spoken_local, h0, hs1, hs2, ht3]
        | some sid2 =>
            simp [find_invoice_by_spoken_local, h0, hs1, hs2, ht2 sid2 hs2, ht3]
    | some sid =>
        cases hs2 : searchDigits (normRef ref) with
        | none => simp [find_invoice_by_spoken_local, h0, hs1, hs2, ht1 sid hs1, ht3]
        | some sid2 =>
            simp [find_invoice_by_spoken_local, h0, hs1, hs2, ht1 sid hs1, ht2 sid2 hs2, ht3]
  constructor
  · intro hnp
    rw [hfind]
    simp [tier4, hnp]
  · intro hnp
    have hne : (invs.filter (fun i => !i.paid)).isEmpty = false := by
      simpa [List.isEmpty_iff] using hnp
    have ht4 : tier4 (normRef ref) invs =
        argmaxBy (fun x => x.amount) (invs.filter (fun i => !i.paid)) := by
      simp [tier4, hne, hk1, hk2, hk3, hk4, hk5, hkw]
    rw [hfind, ht4]
    exact argmaxBy_spec (fun x => x.amount) (invs.filter (fun i => !i.paid)) hnp

/-- Witness for the amended C4: reference "largest" against two unpaid
candidates of amounts 10 and 100 selects the amount-100 one. -/
theorem C4_amended_witness :
    ∃ l1 m l2, ([invA, invB].filter (fun i => !i.paid)) = l1 ++ m :: l2 ∧
      find_invoice_by_spoken_local "largest" [invA, invB] = some m ∧
      (∀ y ∈ l1, y.amount < m.amount) ∧ (∀ y ∈ l2, y.amount ≤ m.amount) :=
  (C4_amended_largest_max_amount "largest" [invA, invB] (by decide)
    (fun sid h => by
      rw [show searchInv (normRef "largest") = none from by decide] at h
      cases h)
    (fun sid h => by
      rw [show searchDigits (normRef "largest") = none from by decide] at h
      cases h)
    (by decide) (by decide) (by decide) (by decide) (by decide) (by decide)
    (by decide)).2 (by decide)

end AgentAdk
